import Mathlib

/-!
Verification development for the Local Food Wastage Management System
(`local_food_wastage_app_fixed.py`): a shallow embedding of the SQLite-backed
data model, the bootstrap/seed routine, the data-access helpers and the view
and mutation components, together with theorems settling the specified
properties.

Modelling conventions:
* A database file is `Option DB`: `none` means the store file does not exist.
* SQL values are `SqlValue` (NULL, integer, text); a result row is a list of
  values, in column order.
* `create_database` gives `FoodListings` the column
  `Listing_ID INTEGER PRIMARY KEY AUTOINCREMENT`; the pandas
  `to_sql(..., if_exists="replace")` calls in `load_embedded_data_to_db`
  drop each table and recreate it from the DataFrame schema, which carries
  no primary key.  The flag `DB.foodListingsAutoPK` records whether the
  `FoodListings` table still has its autoincrement primary key; an INSERT
  that omits `Listing_ID` stores NULL in that column when the flag is false
  (plain-column SQLite semantics) and a fresh id when it is true.
* The relevant fragment of SQLite read semantics (as used through
  `pandas.read_sql` / `read_sql_query` and `cursor.execute`) is the
  executable evaluator `sqliteReadSql`; statements outside the fragment
  evaluate to `Except.error`, exactly as the library surfaces an exception.
-/

namespace FoodApp

/-- A SQLite value as it appears in a fetched row: NULL, INTEGER or TEXT. -/
inductive SqlValue where
  | vNull : SqlValue
  | vInt (n : Int) : SqlValue
  | vText (s : String) : SqlValue
deriving DecidableEq

/-- A fetched result row, in column order. -/
abbrev Row := List SqlValue

/-- A row of the `Providers` table (`Provider_ID, Name, Type`). -/
structure Provider where
  provider_ID : Int
  name : String
  ptype : String
deriving DecidableEq

/-- A row of the `Receivers` table (`Receiver_ID, Name, Type`). -/
structure Receiver where
  receiver_ID : Int
  name : String
  rtype : String
deriving DecidableEq

/-- A row of the `FoodListings` table.  `listing_ID` is optional because the
column admits NULL once the pandas replace has dropped the primary key. -/
structure FoodListing where
  listing_ID : Option Int
  food_Name : String
  quantity : Int
  expiry_Date : String
  provider_ID : Int
  provider_Type : String
  location : String
  food_Type : String
  meal_Type : String
deriving DecidableEq

/-- A row of the `Claims` table (`Claim_ID, Listing_ID, Receiver_ID, Claim_Date`). -/
structure Claim where
  claim_ID : Int
  listing_ID : Int
  receiver_ID : Int
  claim_Date : String
deriving DecidableEq

/-- The contents of the store file `food_waste.db`: the four tables, plus a
record of whether `FoodListings` still carries its
`INTEGER PRIMARY KEY AUTOINCREMENT` column (true after `create_database`,
false after the pandas `if_exists="replace"` rewrite). -/
structure DB where
  providers : List Provider
  receivers : List Receiver
  foodListings : List FoodListing
  claims : List Claim
  foodListingsAutoPK : Bool
deriving DecidableEq

/-- `Providers` row as fetched by `SELECT *`. -/
def providerRow (p : Provider) : Row :=
  [SqlValue.vInt p.provider_ID, SqlValue.vText p.name, SqlValue.vText p.ptype]

/-- `Receivers` row as fetched by `SELECT *`. -/
def receiverRow (r : Receiver) : Row :=
  [SqlValue.vInt r.receiver_ID, SqlValue.vText r.name, SqlValue.vText r.rtype]

/-- `FoodListings` row as fetched by `SELECT *`; a missing id reads as NULL. -/
def foodListingRow (l : FoodListing) : Row :=
  [(match l.listing_ID with | some n => SqlValue.vInt n | none => SqlValue.vNull),
   SqlValue.vText l.food_Name, SqlValue.vInt l.quantity, SqlValue.vText l.expiry_Date,
   SqlValue.vInt l.provider_ID, SqlValue.vText l.provider_Type, SqlValue.vText l.location,
   SqlValue.vText l.food_Type, SqlValue.vText l.meal_Type]

/-- `Claims` row as fetched by `SELECT *`. -/
def claimRow (c : Claim) : Row :=
  [SqlValue.vInt c.claim_ID, SqlValue.vInt c.listing_ID,
   SqlValue.vInt c.receiver_ID, SqlValue.vText c.claim_Date]

/-- Full contents of a table by name; `none` when no such table exists. -/
def tableRows (db : DB) : String → Option (List Row)
  | "Providers" => some (db.providers.map providerRow)
  | "Receivers" => some (db.receivers.map receiverRow)
  | "FoodListings" => some (db.foodListings.map foodListingRow)
  | "Claims" => some (db.claims.map claimRow)
  | _ => none

/-- Column names of each table, in declaration order; `none` for an unknown
table name. -/
def tableColumns : String → Option (List String)
  | "Providers" => some ["Provider_ID", "Name", "Type"]
  | "Receivers" => some ["Receiver_ID", "Name", "Type"]
  | "FoodListings" =>
      some ["Listing_ID", "Food_Name", "Quantity", "Expiry_Date", "Provider_ID",
            "Provider_Type", "Location", "Food_Type", "Meal_Type"]
  | "Claims" => some ["Claim_ID", "Listing_ID", "Receiver_ID", "Claim_Date"]
  | _ => none

/-- The values of one column of one table, in row order; `none` when the
table or column does not exist. -/
def columnValues (db : DB) : String → String → Option (List SqlValue)
  | "Providers", "Provider_ID" => some (db.providers.map (fun p => SqlValue.vInt p.provider_ID))
  | "Providers", "Name" => some (db.providers.map (fun p => SqlValue.vText p.name))
  | "Providers", "Type" => some (db.providers.map (fun p => SqlValue.vText p.ptype))
  | "Receivers", "Receiver_ID" => some (db.receivers.map (fun r => SqlValue.vInt r.receiver_ID))
  | "Receivers", "Name" => some (db.receivers.map (fun r => SqlValue.vText r.name))
  | "Receivers", "Type" => some (db.receivers.map (fun r => SqlValue.vText r.rtype))
  | "FoodListings", "Listing_ID" =>
      some (db.foodListings.map (fun l =>
        match l.listing_ID with | some n => SqlValue.vInt n | none => SqlValue.vNull))
  | "FoodListings", "Food_Name" => some (db.foodListings.map (fun l => SqlValue.vText l.food_Name))
  | "FoodListings", "Quantity" => some (db.foodListings.map (fun l => SqlValue.vInt l.quantity))
  | "FoodListings", "Expiry_Date" => some (db.foodListings.map (fun l => SqlValue.vText l.expiry_Date))
  | "FoodListings", "Provider_ID" => some (db.foodListings.map (fun l => SqlValue.vInt l.provider_ID))
  | "FoodListings", "Provider_Type" => some (db.foodListings.map (fun l => SqlValue.vText l.provider_Type))
  | "FoodListings", "Location" => some (db.foodListings.map (fun l => SqlValue.vText l.location))
  | "FoodListings", "Food_Type" => some (db.foodListings.map (fun l => SqlValue.vText l.food_Type))
  | "FoodListings", "Meal_Type" => some (db.foodListings.map (fun l => SqlValue.vText l.meal_Type))
  | "Claims", "Claim_ID" => some (db.claims.map (fun c => SqlValue.vInt c.claim_ID))
  | "Claims", "Listing_ID" => some (db.claims.map (fun c => SqlValue.vInt c.listing_ID))
  | "Claims", "Receiver_ID" => some (db.claims.map (fun c => SqlValue.vInt c.receiver_ID))
  | "Claims", "Claim_Date" => some (db.claims.map (fun c => SqlValue.vText c.claim_Date))
  | _, _ => none

/-- Whitespace tokenizer: splits a statement on spaces, dropping empty
runs.  (Part of the modelled SQLite front end; statements the evaluator
supports are recognised by their token lists.) -/
def wordsAux : List Char → List Char → List String
  | [], acc => if acc.isEmpty then [] else [String.mk acc.reverse]
  | c :: cs, acc =>
      if c = ' ' then
        if acc.isEmpty then wordsAux cs [] else String.mk acc.reverse :: wordsAux cs []
      else wordsAux cs (c :: acc)

/-- All space-separated tokens of a statement. -/
def tokens (s : String) : List String := wordsAux s.toList []

/-- Duplicate removal keeping the first occurrence of each value, the order a
full-scan `SELECT DISTINCT` produces; `seen` accumulates values already kept. -/
def dedupFirst {α : Type} [DecidableEq α] : List α → List α → List α
  | [], _ => []
  | x :: xs, seen =>
      if x ∈ seen then dedupFirst xs seen else x :: dedupFirst xs (x :: seen)

/-- Byte-order comparison on characters then lexicographic on strings: the
BINARY collation SQLite sorts TEXT group keys by. -/
def charsLt : List Char → List Char → Bool
  | [], [] => false
  | [], _ :: _ => true
  | _ :: _, [] => false
  | a :: as, b :: bs => if a < b then true else if b < a then false else charsLt as bs

/-- String comparison under BINARY collation. -/
def strLt (a b : String) : Bool := charsLt a.toList b.toList

/-- Insert into a BINARY-sorted list of strings. -/
def insertStr (x : String) : List String → List String
  | [] => [x]
  | y :: ys => if strLt x y then x :: y :: ys else y :: insertStr x ys

/-- Sort strings in ascending BINARY order (the order `GROUP BY` on a TEXT
column returns its groups in). -/
def sortStrs : List String → List String
  | [] => []
  | x :: xs => insertStr x (sortStrs xs)

/-- Sum of `Quantity` over the listings with the given `Food_Type`. -/
def sumQuantity (db : DB) (ft : String) : Int :=
  (db.foodListings.filter (fun l => l.food_Type = ft)).foldl (fun a l => a + l.quantity) 0

/-- The distinct `Food_Type` keys of `FoodListings`, in the sorted order the
grouped query returns. -/
def foodTypeKeys (db : DB) : List String :=
  sortStrs (dedupFirst (db.foodListings.map (fun l => l.food_Type)) [])

/-- Result rows of
`SELECT Food_Type, SUM(Quantity) as Total FROM FoodListings GROUP BY Food_Type`. -/
def foodTypeGroups (db : DB) : List Row :=
  (foodTypeKeys db).map (fun k => [SqlValue.vText k, SqlValue.vInt (sumQuantity db k)])

/-- Executable model of evaluating a read statement against the store, as
`pandas.read_sql` / `read_sql_query` and `cursor.execute` surface it: the
fetched rows on success, `Except.error` carrying the exception text on any
failure (syntax error, unknown table or column, or a statement outside the
modelled read fragment). -/
def sqliteReadSql (q : String) (db : DB) : Except String (List Row) :=
  match tokens q with
  | ["SELECT", "*", "FROM", t] =>
      match tableRows db t with
      | some rows => Except.ok rows
      | none => Except.error ("no such table: " ++ t)
  | ["SELECT", "DISTINCT", c, "FROM", t] =>
      match columnValues db t c with
      | some vals => Except.ok ((dedupFirst vals []).map (fun v => [v]))
      | none =>
          if (tableColumns t).isSome then Except.error ("no such column: " ++ c)
          else Except.error ("no such table: " ++ t)
  | ["SELECT", "Food_Type,", "SUM(Quantity)", "as", "Total", "FROM", "FoodListings",
     "GROUP", "BY", "Food_Type"] =>
      Except.ok (foodTypeGroups db)
  | _ => Except.error "syntax error"

/-- `execute_query(query)` without parameters, as used for reads: connect,
execute, fetchall, commit, close; the fetched rows come back, an exception
surfaces as `Except.error`. -/
def execute_query (db : DB) (q : String) : Except String (List Row) :=
  sqliteReadSql q db

/-- `get_unique_values(table, column)`: builds
`SELECT DISTINCT {column} FROM {table}`, runs it through `execute_query`,
keeps element 0 of each row, and the bare `except:` maps every failure to
the empty list. -/
def get_unique_values (db : DB) (table column : String) : List SqlValue :=
  match execute_query db ("SELECT DISTINCT " ++ column ++ " FROM " ++ table) with
  | Except.ok results => results.map (fun r => r.headD SqlValue.vNull)
  | Except.error _ => []

/-- `create_database()`: four `CREATE TABLE IF NOT EXISTS` statements.  On a
missing store file the connect creates the file and the tables are created
empty, `FoodListings` with its autoincrement primary key; on an existing
store every statement is a no-op. -/
def create_database : Option DB → DB
  | some db => db
  | none =>
      { providers := [], receivers := [], foodListings := [], claims := [],
        foodListingsAutoPK := true }

/-- The seed `Providers` DataFrame. -/
def seedProviders : List Provider :=
  [{ provider_ID := 1, name := "Provider A", ptype := "Restaurant" },
   { provider_ID := 2, name := "Provider B", ptype := "Supermarket" }]

/-- The seed `Receivers` DataFrame. -/
def seedReceivers : List Receiver :=
  [{ receiver_ID := 1, name := "Receiver A", rtype := "NGO" },
   { receiver_ID := 2, name := "Receiver B", rtype := "Charity" }]

/-- The seed `FoodListings` DataFrame; ids 1 and 2 are stored as plain
integer values by `to_sql`. -/
def seedFoodListings : List FoodListing :=
  [{ listing_ID := some 1, food_Name := "Rice", quantity := 10,
     expiry_Date := "2025-05-10", provider_ID := 1, provider_Type := "Restaurant",
     location := "Downtown", food_Type := "Grain", meal_Type := "Lunch" },
   { listing_ID := some 2, food_Name := "Bread", quantity := 5,
     expiry_Date := "2025-05-12", provider_ID := 2, provider_Type := "Supermarket",
     location := "Uptown", food_Type := "Bakery", meal_Type := "Breakfast" }]

/-- The seed `Claims` DataFrame. -/
def seedClaims : List Claim :=
  [{ claim_ID := 1, listing_ID := 1, receiver_ID := 1, claim_Date := "2025-05-08" }]

/-- `load_embedded_data_to_db()`: each `to_sql(..., if_exists="replace")`
drops the table and recreates it from the DataFrame — so afterwards the
tables hold exactly the seed rows and `FoodListings` no longer has its
autoincrement primary key. -/
def load_embedded_data_to_db (_db : DB) : DB :=
  { providers := seedProviders, receivers := seedReceivers,
    foodListings := seedFoodListings, claims := seedClaims,
    foodListingsAutoPK := false }

/-- The bootstrap guard in `main()`: when the store file does not exist, run
`create_database` then `load_embedded_data_to_db`; otherwise touch nothing. -/
def main_bootstrap : Option DB → DB
  | some db => db
  | none => load_embedded_data_to_db (create_database none)

/-- The store contents right after a first launch against a missing file. -/
def seedDB : DB := main_bootstrap none

/-- The next id SQLite AUTOINCREMENT would assign in `FoodListings`. -/
def nextListingId (db : DB) : Int :=
  (db.foodListings.filterMap (fun l => l.listing_ID)).foldl max 0 + 1

/-- The eight values collected by the Add Food Listing form, in the order the
INSERT binds them. -/
structure InsertParams where
  food_name : String
  quantity : Int
  expiry_date : String
  provider_id : Int
  provider_type : String
  location : String
  food_type : String
  meal_type : String
deriving DecidableEq

/-- The row the parameterized
`INSERT INTO FoodListings (Food_Name, ..., Meal_Type) VALUES (?, ..., ?)`
stores: the eight bound values, and for the omitted `Listing_ID` column a
fresh id when the table still has its autoincrement primary key, NULL
otherwise. -/
def insertedListing (db : DB) (p : InsertParams) : FoodListing :=
  { listing_ID := if db.foodListingsAutoPK then some (nextListingId db) else none,
    food_Name := p.food_name, quantity := p.quantity, expiry_Date := p.expiry_date,
    provider_ID := p.provider_id, provider_Type := p.provider_type,
    location := p.location, food_Type := p.food_type, meal_Type := p.meal_type }

/-- Store state after the Add Listing button submits the form: the INSERT
through `execute_query` appends one row to `FoodListings`. -/
def add_food_listing_submit (db : DB) (p : InsertParams) : DB :=
  { db with foodListings := db.foodListings ++ [insertedListing db p] }

/-- The Food Type selectbox options:
`get_unique_values("FoodListings", "Food_Type") or ["Vegetable", "Grain"]` —
Python `or` substitutes the fallback exactly when the helper returns `[]`. -/
def foodTypeOptions (db : DB) : List SqlValue :=
  let vs := get_unique_values db "FoodListings" "Food_Type"
  if vs.isEmpty then [SqlValue.vText "Vegetable", SqlValue.vText "Grain"] else vs

/-- The Meal Type selectbox options, with fallback
`["Breakfast", "Lunch", "Dinner"]`. -/
def mealTypeOptions (db : DB) : List SqlValue :=
  let vs := get_unique_values db "FoodListings" "Meal_Type"
  if vs.isEmpty then
    [SqlValue.vText "Breakfast", SqlValue.vText "Lunch", SqlValue.vText "Dinner"]
  else vs

/-- What the SQL Queries view renders: a dataframe of rows, or the
`st.error` message. -/
inductive QueryOutcome where
  | table (rows : List Row) : QueryOutcome
  | errorMsg (msg : String) : QueryOutcome
deriving DecidableEq

/-- `display_sql_queries()` on pressing Execute: `pd.read_sql_query` runs the
text against a fresh connection; its rows are rendered, and any exception is
caught and shown as `st.error(f"Error: {e}")`.  The pair carries the store
contents after the interaction alongside what was rendered. -/
def display_sql_queries (db : DB) (q : String) : DB × QueryOutcome :=
  match sqliteReadSql q db with
  | Except.ok rows => (db, QueryOutcome.table rows)
  | Except.error e => (db, QueryOutcome.errorMsg ("Error: " ++ e))

/-- `display_data(table)`: `pd.read_sql(f"SELECT * FROM {table}", ...)`,
rendered as a dataframe (or the exception, which this view does not catch). -/
def display_data (db : DB) (table : String) : Except String (List Row) :=
  sqliteReadSql ("SELECT * FROM " ++ table) db

/-- What the chart view renders when it finishes normally. -/
inductive ChartOutcome where
  | warning (msg : String) : ChartOutcome
  | barChart (data : List Row) (x y : String) (xtickRota : Nat) : ChartOutcome
deriving DecidableEq

/-- `display_food_wastage_by_type_chart()`: runs the grouped aggregate query,
warns `"No data available."` on an empty result, and otherwise reaches
`plt.figure(...)` — but the source never imports `matplotlib.pyplot`, so
the call raises `NameError` instead of rendering the bar chart. -/
def display_food_wastage_by_type_chart (db : DB) : Except String ChartOutcome :=
  match sqliteReadSql
      "SELECT Food_Type, SUM(Quantity) as Total FROM FoodListings GROUP BY Food_Type" db with
  | Except.error e => Except.error e
  | Except.ok rows =>
      if rows.isEmpty then Except.ok (ChartOutcome.warning "No data available.")
      else Except.error "NameError: name plt is not defined"

/-- Connection-lifecycle events of one user action, in program order. -/
inductive DbEvent where
  | openConn : DbEvent
  | execStmt : DbEvent
  | commitTx : DbEvent
  | closeConn : DbEvent
  | render : DbEvent
deriving DecidableEq

/-- `execute_query`: `sqlite3.connect`, `cursor.execute`, `fetchall`,
`conn.commit()`, `conn.close()`. -/
def execute_query_trace : List DbEvent :=
  [DbEvent.openConn, DbEvent.execStmt, DbEvent.commitTx, DbEvent.closeConn]

/-- `display_data`: `pd.read_sql(..., sqlite3.connect(DB_NAME))` then
`st.dataframe(df)` — the inline connection is never closed. -/
def display_data_trace : List DbEvent :=
  [DbEvent.openConn, DbEvent.execStmt, DbEvent.render]

/-- `display_food_listings`: same inline-connection pattern as
`display_data`. -/
def display_food_listings_trace : List DbEvent :=
  [DbEvent.openConn, DbEvent.execStmt, DbEvent.render]

/-- `display_sql_queries` on Execute: `pd.read_sql_query` over an inline
connection, then `st.dataframe` or `st.error` — the connection is never
closed on either path. -/
def display_sql_queries_trace : List DbEvent :=
  [DbEvent.openConn, DbEvent.execStmt, DbEvent.render]

/-- `display_food_wastage_by_type_chart`: connect, read the aggregate,
`conn.close()`, then render (warning or plot). -/
def display_chart_trace : List DbEvent :=
  [DbEvent.openConn, DbEvent.execStmt, DbEvent.closeConn, DbEvent.render]

/-- The Add Listing submission: the INSERT runs through `execute_query`
(which closes its connection), then `st.success` renders. -/
def add_food_listing_trace : List DbEvent :=
  execute_query_trace ++ [DbEvent.render]

/-- A `get_unique_values` lookup: exactly one `execute_query` round trip. -/
def get_unique_values_trace : List DbEvent :=
  execute_query_trace

/-- Number of connections still open after the trace, starting from `n`. -/
def openConnsAfter : List DbEvent → Nat → Nat
  | [], n => n
  | DbEvent.openConn :: tr, n => openConnsAfter tr (n + 1)
  | DbEvent.closeConn :: tr, n => openConnsAfter tr (n - 1)
  | _ :: tr, n => openConnsAfter tr n

/-- `true` when every render event in the trace happens with zero
connections open, i.e. the action closed its connection before rendering. -/
def closedBeforeRenders : List DbEvent → Nat → Bool
  | [], _ => true
  | DbEvent.openConn :: tr, n => closedBeforeRenders tr (n + 1)
  | DbEvent.closeConn :: tr, n => closedBeforeRenders tr (n - 1)
  | DbEvent.render :: tr, n => n == 0 && closedBeforeRenders tr n
  | _ :: tr, n => closedBeforeRenders tr n

/-- The six user-action operations named by the connection-discipline claim,
with their traces. -/
def opTraces : List (String × List DbEvent) :=
  [("table dump", display_data_trace),
   ("food listings view", display_food_listings_trace),
   ("ad-hoc query", display_sql_queries_trace),
   ("aggregate chart", display_chart_trace),
   ("add-listing insert", add_food_listing_trace),
   ("distinct-values lookup", get_unique_values_trace)]

/-- A concrete valid form submission (quantity ≥ 1, provider 1 of type
Restaurant, seed food and meal types), used to evaluate the insert path. -/
def appleParams : InsertParams :=
  { food_name := "Apple", quantity := 1, expiry_date := "2025-06-01", provider_id := 1,
    provider_type := "Restaurant", location := "Downtown", food_type := "Grain",
    meal_type := "Lunch" }

/-- Wrapping each value into a one-column row and taking element 0 back is
the identity: the shape `get_unique_values` applies to a DISTINCT result. -/
theorem mapSingletonHead (l : List SqlValue) :
    (l.map (fun v => [v])).map (fun r => r.headD SqlValue.vNull) = l := by
  induction l with
  | nil => rfl
  | cons x xs ih =>
      simp only [List.map_cons, ih]
      rfl

/-- `get_unique_values` on `FoodListings.Food_Type` computes the distinct
`Food_Type` values, first occurrence first. -/
theorem guv_food_type (db : DB) :
    get_unique_values db "FoodListings" "Food_Type"
      = dedupFirst (db.foodListings.map (fun l => SqlValue.vText l.food_Type)) [] := by
  show ((dedupFirst (db.foodListings.map (fun l => SqlValue.vText l.food_Type)) []).map
      (fun v => [v])).map (fun r => r.headD SqlValue.vNull) = _
  exact mapSingletonHead _

/-- `get_unique_values` on `FoodListings.Meal_Type` computes the distinct
`Meal_Type` values, first occurrence first. -/
theorem guv_meal_type (db : DB) :
    get_unique_values db "FoodListings" "Meal_Type"
      = dedupFirst (db.foodListings.map (fun l => SqlValue.vText l.meal_Type)) [] := by
  show ((dedupFirst (db.foodListings.map (fun l => SqlValue.vText l.meal_Type)) []).map
      (fun v => [v])).map (fun r => r.headD SqlValue.vNull) = _
  exact mapSingletonHead _

/-- Claim C2: first launch against a nonexistent store creates exactly the
four tables (Providers, Receivers, FoodListings, Claims) and populates
exactly the fixed seed rows — 2 providers with ids 1, 2 named Provider A and
Provider B; 2 receivers; 2 food listings with ids 1, 2 named Rice and Bread
with quantities 10 and 5; and 1 claim with id 1 linking listing 1 to
receiver 1 dated 2025-05-08. -/
theorem bootstrap_fresh_store_seeds :
    seedDB.providers =
      [{ provider_ID := 1, name := "Provider A", ptype := "Restaurant" },
       { provider_ID := 2, name := "Provider B", ptype := "Supermarket" }] ∧
    seedDB.receivers.length = 2 ∧
    seedDB.foodListings =
      [{ listing_ID := some 1, food_Name := "Rice", quantity := 10,
         expiry_Date := "2025-05-10", provider_ID := 1, provider_Type := "Restaurant",
         location := "Downtown", food_Type := "Grain", meal_Type := "Lunch" },
       { listing_ID := some 2, food_Name := "Bread", quantity := 5,
         expiry_Date := "2025-05-12", provider_ID := 2, provider_Type := "Supermarket",
         location := "Uptown", food_Type := "Bakery", meal_Type := "Breakfast" }] ∧
    seedDB.claims =
      [{ claim_ID := 1, listing_ID := 1, receiver_ID := 1, claim_Date := "2025-05-08" }] ∧
    (∀ t, (tableRows seedDB t).isSome
        = (t == "Providers" || t == "Receivers" || t == "FoodListings" || t == "Claims")) := by
  refine ⟨rfl, rfl, rfl, rfl, fun t => ?_⟩
  unfold tableRows
  split <;> simp_all

/-- Claim C6: when the store file already exists, running the bootstrap
again returns every table — and the whole store — unchanged, because the
guard is the file-existence check. -/
theorem bootstrap_existing_store_unchanged (db : DB) :
    main_bootstrap (some db) = db ∧
    (main_bootstrap (some db)).providers = db.providers ∧
    (main_bootstrap (some db)).receivers = db.receivers ∧
    (main_bootstrap (some db)).foodListings = db.foodListings ∧
    (main_bootstrap (some db)).claims = db.claims :=
  ⟨rfl, rfl, rfl, rfl, rfl⟩

/-- Claim C8: for each of the four allow-listed table names, the Table Dump
view returns the full contents of that table — every row, in order, with no
filtering and no row limit. -/
theorem table_dump_returns_all_rows (db : DB) :
    display_data db "Providers" = Except.ok (db.providers.map providerRow) ∧
    display_data db "Receivers" = Except.ok (db.receivers.map receiverRow) ∧
    display_data db "FoodListings" = Except.ok (db.foodListings.map foodListingRow) ∧
    display_data db "Claims" = Except.ok (db.claims.map claimRow) :=
  ⟨rfl, rfl, rfl, rfl⟩

/-- Claim C3: the ad-hoc query runner maps an invalid statement to the
rendered message `Error: ...` and a valid read statement to exactly the rows
the store evaluates it to; in both cases the store contents after the
interaction are unchanged. -/
theorem sql_runner_error_and_read (db : DB) (q : String) :
    (∀ e, sqliteReadSql q db = Except.error e →
        display_sql_queries db q = (db, QueryOutcome.errorMsg ("Error: " ++ e))) ∧
    (∀ rows, sqliteReadSql q db = Except.ok rows →
        display_sql_queries db q = (db, QueryOutcome.table rows)) ∧
    (display_sql_queries db q).1 = db := by
  refine ⟨fun e he => ?_, fun rows hr => ?_, ?_⟩
  · simp [display_sql_queries, he]
  · simp [display_sql_queries, hr]
  · cases h : sqliteReadSql q db <;> simp [display_sql_queries, h]

/-- Witness for C3: on the seeded store, the invalid statement `BANANA`
renders the error message and leaves the store unchanged, and the read
statement `SELECT * FROM Claims` renders exactly the one claim row. -/
theorem sql_runner_error_and_read_witness :
    display_sql_queries seedDB "BANANA"
      = (seedDB, QueryOutcome.errorMsg "Error: syntax error") ∧
    display_sql_queries seedDB "SELECT * FROM Claims"
      = (seedDB, QueryOutcome.table
          [[SqlValue.vInt 1, SqlValue.vInt 1, SqlValue.vInt 1, SqlValue.vText "2025-05-08"]]) :=
  ⟨(sql_runner_error_and_read seedDB "BANANA").1 "syntax error" rfl,
   (sql_runner_error_and_read seedDB "SELECT * FROM Claims").2.1
     [[SqlValue.vInt 1, SqlValue.vInt 1, SqlValue.vInt 1, SqlValue.vText "2025-05-08"]] rfl⟩

/-- Claim C4: the distinct-values helper fails open — whenever evaluating
`SELECT DISTINCT {column} FROM {table}` errors (unknown table, unknown
column, or any other failure) it returns the empty list instead of
propagating the error, and when the query succeeds it returns exactly the
distinct values of that column (element 0 of each result row; for a real
table and column, the deduplicated column contents). -/
theorem get_unique_values_fails_open (db : DB) (t c : String) :
    ((∃ e, sqliteReadSql ("SELECT DISTINCT " ++ c ++ " FROM " ++ t) db = Except.error e) →
        get_unique_values db t c = []) ∧
    (∀ rows, sqliteReadSql ("SELECT DISTINCT " ++ c ++ " FROM " ++ t) db = Except.ok rows →
        get_unique_values db t c = rows.map (fun r => r.headD SqlValue.vNull)) := by
  refine ⟨fun ⟨e, he⟩ => ?_, fun rows hr => ?_⟩
  · simp [get_unique_values, execute_query, he]
  · simp [get_unique_values, execute_query, hr]

/-- Witness for C4: on the seeded store a lookup against a missing table
returns the empty list, and the `Providers.Name` lookup succeeds. -/
theorem get_unique_values_fails_open_witness :
    get_unique_values seedDB "NoSuchTable" "X" = [] ∧
    get_unique_values seedDB "Providers" "Name"
      = [SqlValue.vText "Provider A", SqlValue.vText "Provider B"] :=
  ⟨(get_unique_values_fails_open seedDB "NoSuchTable" "X").1
     ⟨"no such table: NoSuchTable", rfl⟩,
   (get_unique_values_fails_open seedDB "Providers" "Name").2
     [[SqlValue.vText "Provider A"], [SqlValue.vText "Provider B"]] rfl⟩

/-- Claim C10: the distinct-values helper is total — for every table string
and column string the underlying query either succeeds, in which case the
helper returns element 0 of each row, or raises, in which case the bare
exception handler returns the empty list; no input propagates an error. -/
theorem get_unique_values_total (db : DB) (t c : String) :
    (∃ rows, sqliteReadSql ("SELECT DISTINCT " ++ c ++ " FROM " ++ t) db = Except.ok rows
        ∧ get_unique_values db t c = rows.map (fun r => r.headD SqlValue.vNull))
    ∨ (∃ e, sqliteReadSql ("SELECT DISTINCT " ++ c ++ " FROM " ++ t) db = Except.error e
        ∧ get_unique_values db t c = []) := by
  cases h : sqliteReadSql ("SELECT DISTINCT " ++ c ++ " FROM " ++ t) db with
  | ok rows => exact Or.inl ⟨rows, rfl, by simp [get_unique_values, execute_query, h]⟩
  | error e => exact Or.inr ⟨e, rfl, by simp [get_unique_values, execute_query, h]⟩

/-- Claim C9: the Add Food Listing form offers as food types exactly the
distinct existing `Food_Type` values of `FoodListings`, falling back to
Vegetable, Grain when there are none, and as meal types the distinct
existing `Meal_Type` values, falling back to Breakfast, Lunch, Dinner. -/
theorem add_listing_option_fallbacks (db : DB) :
    foodTypeOptions db =
      (if (dedupFirst (db.foodListings.map (fun l => SqlValue.vText l.food_Type)) []).isEmpty
       then [SqlValue.vText "Vegetable", SqlValue.vText "Grain"]
       else dedupFirst (db.foodListings.map (fun l => SqlValue.vText l.food_Type)) []) ∧
    mealTypeOptions db =
      (if (dedupFirst (db.foodListings.map (fun l => SqlValue.vText l.meal_Type)) []).isEmpty
       then [SqlValue.vText "Breakfast", SqlValue.vText "Lunch", SqlValue.vText "Dinner"]
       else dedupFirst (db.foodListings.map (fun l => SqlValue.vText l.meal_Type)) []) := by
  constructor
  · simp only [foodTypeOptions, guv_food_type]
  · simp only [mealTypeOptions, guv_meal_type]

/-- Claim C1 (bug evaluation): on the seeded store, submitting the Add Food
Listing form with valid parameters does append exactly one row whose eight
submitted fields round-trip — but its `Listing_ID` is NULL, not a freshly
assigned identifier, because the pandas `if_exists="replace"` seed writes
dropped the `AUTOINCREMENT` primary key and the INSERT omits the column. -/
theorem add_listing_inserts_null_id :
    seedDB.foodListingsAutoPK = false ∧
    (add_food_listing_submit seedDB appleParams).foodListings.length
      = seedDB.foodListings.length + 1 ∧
    (add_food_listing_submit seedDB appleParams).foodListings.getLast?
      = some { listing_ID := none, food_Name := "Apple", quantity := 1,
               expiry_Date := "2025-06-01", provider_ID := 1,
               provider_Type := "Restaurant", location := "Downtown",
               food_Type := "Grain", meal_Type := "Lunch" } ∧
    ((add_food_listing_submit seedDB appleParams).foodListings.getLast?).map
        (fun l => l.listing_ID) = some none :=
  ⟨rfl, rfl, rfl, rfl⟩

/-- Claim C5 (bug evaluation): over the seed data the aggregate query yields
exactly the two groups (Bakery, 5) and (Grain, 10); on that nonempty result
the chart view raises `NameError` instead of rendering, because
`matplotlib.pyplot` (`plt`) is never imported, while the empty-result path
does show the placeholder warning. -/
theorem chart_aggregate_and_name_error :
    sqliteReadSql
        "SELECT Food_Type, SUM(Quantity) as Total FROM FoodListings GROUP BY Food_Type"
        seedDB
      = Except.ok [[SqlValue.vText "Bakery", SqlValue.vInt 5],
                   [SqlValue.vText "Grain", SqlValue.vInt 10]] ∧
    display_food_wastage_by_type_chart seedDB
      = Except.error "NameError: name plt is not defined" ∧
    display_food_wastage_by_type_chart { seedDB with foodListings := [] }
      = Except.ok (ChartOutcome.warning "No data available.") :=
  ⟨rfl, rfl, rfl⟩

/-- Counterexample to claim C7 as stated: the table-dump operation is one of
the six user actions, yet it renders with its connection still open and
finishes with one connection never closed. -/
theorem table_dump_leaves_connection_open :
    ("table dump", display_data_trace) ∈ opTraces ∧
    closedBeforeRenders display_data_trace 0 = false ∧
    openConnsAfter display_data_trace 0 = 1 := by
  decide

/-- Claim C7 as amended: the add-listing insert, the distinct-values lookup
and the aggregate chart close their connection before rendering and leave no
connection open; the table dump, the food-listings view and the ad-hoc query
runner render over a still-open connection and never close it, leaving one
connection open (released only by garbage collection). -/
theorem connection_discipline_per_operation :
    closedBeforeRenders add_food_listing_trace 0 = true ∧
    openConnsAfter add_food_listing_trace 0 = 0 ∧
    closedBeforeRenders get_unique_values_trace 0 = true ∧
    openConnsAfter get_unique_values_trace 0 = 0 ∧
    closedBeforeRenders display_chart_trace 0 = true ∧
    openConnsAfter display_chart_trace 0 = 0 ∧
    closedBeforeRenders display_data_trace 0 = false ∧
    openConnsAfter display_data_trace 0 = 1 ∧
    closedBeforeRenders display_food_listings_trace 0 = false ∧
    openConnsAfter display_food_listings_trace 0 = 1 ∧
    closedBeforeRenders display_sql_queries_trace 0 = false ∧
    openConnsAfter display_sql_queries_trace 0 = 1 := by
  decide

end FoodApp
